import Mathlib

/-!
Verification of the booking lifecycle manager and the host-properties
lookup of `alx_travel_app/listings/views.py`, as a shallow embedding.

The embedding mirrors the source:
- a `Booking` record carries the attributes of the Django model used by the
  views (identifier, property reference, user reference, date range, status
  string, created timestamp);
- `BookingViewSet.confirm` and `BookingViewSet.cancel` are translated to
  pure functions returning the HTTP response produced, the booking record
  after the call, and the number of `save()` calls performed;
- `UserViewSet.properties` is translated to a pure function of the user.
-/

/-- Booking record, mirroring the attributes the views operate on
(`booking.status` is a free-form string column in the model; the other
fields are carried along to express frame conditions). -/
structure Booking where
  id : Nat
  property_ref : Nat
  user_ref : Nat
  start_date : String
  end_date : String
  status : String
  created_at : String
deriving DecidableEq, Repr

/-- HTTP response of a booking detail-action: either 200 with the
serialized booking, or an error status with a `\x7b"error": message\x7d`
body. -/
inductive BookingResponse where
  | ok (booking : Booking)
  | err (code : Nat) (message : String)
deriving DecidableEq, Repr

/-- Whether the response is the 200/serialized-booking case. -/
def BookingResponse.isOk : BookingResponse → Bool
  | .ok _ => true
  | .err _ _ => false

/-- `rest_framework.status.HTTP_400_BAD_REQUEST`. -/
def HTTP_400_BAD_REQUEST : Nat := 400

/-- Outcome of one detail-action call: the response returned, the booking
record as it stands after the call, and how many persistence writes
(`save()`) the call performed. -/
structure ActionResult where
  response : BookingResponse
  booking : Booking
  saves : Nat
deriving DecidableEq, Repr

namespace BookingViewSet

/-- `BookingViewSet.confirm` (views.py lines 64-77): reject with 400 and
`"Only pending bookings can be confirmed."` unless the status is
`"pending"`; otherwise set the status to `"confirmed"`, save once, and
return the updated record. -/
def confirm (booking : Booking) : ActionResult :=
  if booking.status ≠ "pending" then
    { response := .err HTTP_400_BAD_REQUEST "Only pending bookings can be confirmed."
      booking := booking
      saves := 0 }
  else
    let booking := { booking with status := "confirmed" }
    { response := .ok booking
      booking := booking
      saves := 1 }

/-- `BookingViewSet.cancel` (views.py lines 79-92): reject with 400 and
`"Booking is already canceled."` when the status is `"canceled"`;
otherwise set the status to `"canceled"`, save once, and return the
updated record. -/
def cancel (booking : Booking) : ActionResult :=
  if booking.status = "canceled" then
    { response := .err HTTP_400_BAD_REQUEST "Booking is already canceled."
      booking := booking
      saves := 0 }
  else
    let booking := { booking with status := "canceled" }
    { response := .ok booking
      booking := booking
      saves := 1 }

end BookingViewSet

/-- User record, mirroring the attributes `UserViewSet.properties` reads:
the `role` string column and the `properties` reverse foreign-key
collection (represented by the list of property identifiers). -/
structure User where
  id : Nat
  role : String
  properties : List Nat
deriving DecidableEq, Repr

/-- HTTP response of the properties-as-host lookup: 200 with the list of
the user's properties, or an error status with a message body. -/
inductive PropertiesResponse where
  | ok (props : List Nat)
  | err (code : Nat) (message : String)
deriving DecidableEq, Repr

namespace UserViewSet

/-- `UserViewSet.properties` (views.py lines 121-133): reject with 400 and
`"User is not a host or admin."` unless the role is `"host"` or
`"admin"`; otherwise return the user's property list. -/
def properties (user : User) : PropertiesResponse :=
  if user.role ∉ (["host", "admin"] : List String) then
    .err HTTP_400_BAD_REQUEST "User is not a host or admin."
  else
    .ok user.properties

end UserViewSet

/-- A sample pending booking used by witnesses. -/
def bPending : Booking :=
  { id := 1, property_ref := 10, user_ref := 20
    start_date := "2026-01-01", end_date := "2026-01-05"
    status := "pending", created_at := "2025-12-01" }

/-- A sample confirmed booking used by witnesses and counterexamples. -/
def bConfirmed : Booking :=
  { id := 2, property_ref := 11, user_ref := 21
    start_date := "2026-02-01", end_date := "2026-02-03"
    status := "confirmed", created_at := "2025-12-02" }

/-- A sample canceled booking used by witnesses. -/
def bCanceled : Booking :=
  { id := 3, property_ref := 12, user_ref := 22
    start_date := "2026-03-01", end_date := "2026-03-04"
    status := "canceled", created_at := "2025-12-03" }

/-- A sample booking whose status lies outside the enumerated set. -/
def bWeird : Booking :=
  { id := 4, property_ref := 13, user_ref := 23
    start_date := "2026-04-01", end_date := "2026-04-02"
    status := "draft", created_at := "2025-12-04" }

/-- C1: for every booking with status `"pending"`, `confirm` succeeds: it
returns the updated record, that record's status is `"confirmed"`, and
exactly one persistence write occurred. -/
theorem confirm_pending_succeeds (b : Booking) (h : b.status = "pending") :
    (BookingViewSet.confirm b).response =
      BookingResponse.ok (BookingViewSet.confirm b).booking ∧
    (BookingViewSet.confirm b).booking.status = "confirmed" ∧
    (BookingViewSet.confirm b).saves = 1 := by
  simp [BookingViewSet.confirm, h]

/-- Witness for C1 at a concrete pending booking. -/
theorem confirm_pending_succeeds_witness :
    (BookingViewSet.confirm bPending).response =
      BookingResponse.ok (BookingViewSet.confirm bPending).booking ∧
    (BookingViewSet.confirm bPending).booking.status = "confirmed" ∧
    (BookingViewSet.confirm bPending).saves = 1 :=
  confirm_pending_succeeds bPending (by decide)

/-- C2: for every booking with status `"pending"` or `"confirmed"`,
`cancel` succeeds: it returns the updated record, that record's status is
`"canceled"`, and exactly one persistence write occurred. -/
theorem cancel_pending_or_confirmed_succeeds (b : Booking)
    (h : b.status = "pending" ∨ b.status = "confirmed") :
    (BookingViewSet.cancel b).response =
      BookingResponse.ok (BookingViewSet.cancel b).booking ∧
    (BookingViewSet.cancel b).booking.status = "canceled" ∧
    (BookingViewSet.cancel b).saves = 1 := by
  have hne : b.status ≠ "canceled" := by
    rcases h with h | h <;> simp [h]
  simp [BookingViewSet.cancel, hne]

/-- Witness for C2 at a concrete pending booking and a concrete confirmed
booking (both prior states). -/
theorem cancel_pending_or_confirmed_succeeds_witness :
    ((BookingViewSet.cancel bPending).response =
      BookingResponse.ok (BookingViewSet.cancel bPending).booking ∧
     (BookingViewSet.cancel bPending).booking.status = "canceled" ∧
     (BookingViewSet.cancel bPending).saves = 1) ∧
    ((BookingViewSet.cancel bConfirmed).response =
      BookingResponse.ok (BookingViewSet.cancel bConfirmed).booking ∧
     (BookingViewSet.cancel bConfirmed).booking.status = "canceled" ∧
     (BookingViewSet.cancel bConfirmed).saves = 1) :=
  ⟨cancel_pending_or_confirmed_succeeds bPending (Or.inl (by decide)),
   cancel_pending_or_confirmed_succeeds bConfirmed (Or.inr (by decide))⟩

/-- C3: for every booking with status `"confirmed"` or `"canceled"`,
`confirm` fails with HTTP 400 carrying exactly
`"Only pending bookings can be confirmed."`, and the record is left
unmodified. -/
theorem confirm_nonpending_fails (b : Booking)
    (h : b.status = "confirmed" ∨ b.status = "canceled") :
    (BookingViewSet.confirm b).response =
      BookingResponse.err HTTP_400_BAD_REQUEST
        "Only pending bookings can be confirmed." ∧
    (BookingViewSet.confirm b).booking = b := by
  have hne : b.status ≠ "pending" := by
    rcases h with h | h <;> simp [h]
  simp [BookingViewSet.confirm, hne]

/-- Witness for C3 at a concrete confirmed booking and a concrete canceled
booking. -/
theorem confirm_nonpending_fails_witness :
    ((BookingViewSet.confirm bConfirmed).response =
      BookingResponse.err HTTP_400_BAD_REQUEST
        "Only pending bookings can be confirmed." ∧
     (BookingViewSet.confirm bConfirmed).booking = bConfirmed) ∧
    ((BookingViewSet.confirm bCanceled).response =
      BookingResponse.err HTTP_400_BAD_REQUEST
        "Only pending bookings can be confirmed." ∧
     (BookingViewSet.confirm bCanceled).booking = bCanceled) :=
  ⟨confirm_nonpending_fails bConfirmed (Or.inl (by decide)),
   confirm_nonpending_fails bCanceled (Or.inr (by decide))⟩

/-- C4: for every booking with status `"canceled"`, `cancel` fails with
HTTP 400 carrying exactly `"Booking is already canceled."`, and the record
is left unmodified. -/
theorem cancel_canceled_fails (b : Booking) (h : b.status = "canceled") :
    (BookingViewSet.cancel b).response =
      BookingResponse.err HTTP_400_BAD_REQUEST
        "Booking is already canceled." ∧
    (BookingViewSet.cancel b).booking = b := by
  simp [BookingViewSet.cancel, h]

/-- Witness for C4 at a concrete canceled booking. -/
theorem cancel_canceled_fails_witness :
    (BookingViewSet.cancel bCanceled).response =
      BookingResponse.err HTTP_400_BAD_REQUEST
        "Booking is already canceled." ∧
    (BookingViewSet.cancel bCanceled).booking = bCanceled :=
  cancel_canceled_fails bCanceled (by decide)

/-- C5 counterexample: the claim that neither action changes the status of
a `"confirmed"` booking is false — `cancel` on a concrete confirmed
booking changes its status to `"canceled"`. -/
theorem confirmed_not_terminal_counterexample :
    ¬ ((BookingViewSet.cancel bConfirmed).booking.status =
        bConfirmed.status) := by
  decide

/-- C5 amended: `"canceled"` is terminal — neither `confirm` nor `cancel`
changes a canceled booking's status — and `confirm` does not change a
`"confirmed"` booking's status; but `cancel` does transition a confirmed
booking to `"canceled"`. -/
theorem terminal_states_amended (b : Booking) :
    (b.status = "canceled" →
      (BookingViewSet.confirm b).booking.status = b.status ∧
      (BookingViewSet.cancel b).booking.status = b.status) ∧
    (b.status = "confirmed" →
      (BookingViewSet.confirm b).booking.status = b.status ∧
      (BookingViewSet.cancel b).booking.status = "canceled") := by
  constructor
  · intro h
    simp [BookingViewSet.confirm, BookingViewSet.cancel, h]
  · intro h
    simp [BookingViewSet.confirm, BookingViewSet.cancel, h]

/-- Witness for the amended C5 at a concrete canceled booking and a
concrete confirmed booking. -/
theorem terminal_states_amended_witness :
    ((BookingViewSet.confirm bCanceled).booking.status = bCanceled.status ∧
     (BookingViewSet.cancel bCanceled).booking.status = bCanceled.status) ∧
    ((BookingViewSet.confirm bConfirmed).booking.status = bConfirmed.status ∧
     (BookingViewSet.cancel bConfirmed).booking.status = "canceled") :=
  ⟨(terminal_states_amended bCanceled).1 (by decide),
   (terminal_states_amended bConfirmed).2 (by decide)⟩

/-- C6: the status set is closed under both actions — for every booking
whose status is in `\x7b"pending", "confirmed", "canceled"\x7d`, after
`confirm` and after `cancel` the status is still in that set. -/
theorem status_set_closed (b : Booking)
    (h : b.status = "pending" ∨ b.status = "confirmed" ∨
         b.status = "canceled") :
    ((BookingViewSet.confirm b).booking.status = "pending" ∨
     (BookingViewSet.confirm b).booking.status = "confirmed" ∨
     (BookingViewSet.confirm b).booking.status = "canceled") ∧
    ((BookingViewSet.cancel b).booking.status = "pending" ∨
     (BookingViewSet.cancel b).booking.status = "confirmed" ∨
     (BookingViewSet.cancel b).booking.status = "canceled") := by
  rcases h with h | h | h <;>
    simp [BookingViewSet.confirm, BookingViewSet.cancel, h]

/-- Witness for C6 at a concrete pending booking. -/
theorem status_set_closed_witness :
    ((BookingViewSet.confirm bPending).booking.status = "pending" ∨
     (BookingViewSet.confirm bPending).booking.status = "confirmed" ∨
     (BookingViewSet.confirm bPending).booking.status = "canceled") ∧
    ((BookingViewSet.cancel bPending).booking.status = "pending" ∨
     (BookingViewSet.cancel bPending).booking.status = "confirmed" ∨
     (BookingViewSet.cancel bPending).booking.status = "canceled") :=
  status_set_closed bPending (Or.inl (by decide))

/-- C7: frame/effect discipline of both actions — a successful call
performs exactly one persistence write, and a failed call performs zero
writes and leaves every field of the record unmodified. -/
theorem save_discipline (b : Booking) :
    ((BookingViewSet.confirm b).response.isOk = true →
      (BookingViewSet.confirm b).saves = 1) ∧
    ((BookingViewSet.confirm b).response.isOk = false →
      (BookingViewSet.confirm b).saves = 0 ∧
      (BookingViewSet.confirm b).booking = b) ∧
    ((BookingViewSet.cancel b).response.isOk = true →
      (BookingViewSet.cancel b).saves = 1) ∧
    ((BookingViewSet.cancel b).response.isOk = false →
      (BookingViewSet.cancel b).saves = 0 ∧
      (BookingViewSet.cancel b).booking = b) := by
  by_cases hp : b.status = "pending" <;>
    by_cases hc : b.status = "canceled" <;>
      simp_all [BookingViewSet.confirm, BookingViewSet.cancel,
        BookingResponse.isOk]

/-- Witness for C7, exercising each implication at concrete bookings:
success and failure branches of both `confirm` and `cancel`. -/
theorem save_discipline_witness :
    ((BookingViewSet.confirm bPending).saves = 1) ∧
    ((BookingViewSet.confirm bConfirmed).saves = 0 ∧
     (BookingViewSet.confirm bConfirmed).booking = bConfirmed) ∧
    ((BookingViewSet.cancel bPending).saves = 1) ∧
    ((BookingViewSet.cancel bCanceled).saves = 0 ∧
     (BookingViewSet.cancel bCanceled).booking = bCanceled) :=
  ⟨(save_discipline bPending).1 (by decide),
   (save_discipline bConfirmed).2.1 (by decide),
   (save_discipline bPending).2.2.1 (by decide),
   (save_discipline bCanceled).2.2.2 (by decide)⟩

/-- C8: idempotence of failure — for every booking with status
`"confirmed"`, calling `confirm` twice in sequence yields the identical
failure response both times, and neither call performs a persistence
write. -/
theorem confirm_failure_idempotent (b : Booking)
    (h : b.status = "confirmed") :
    (BookingViewSet.confirm (BookingViewSet.confirm b).booking).response =
      (BookingViewSet.confirm b).response ∧
    (BookingViewSet.confirm b).response =
      BookingResponse.err HTTP_400_BAD_REQUEST
        "Only pending bookings can be confirmed." ∧
    (BookingViewSet.confirm b).saves = 0 ∧
    (BookingViewSet.confirm (BookingViewSet.confirm b).booking).saves
      = 0 := by
  simp [BookingViewSet.confirm, h]

/-- Witness for C8 at a concrete confirmed booking. -/
theorem confirm_failure_idempotent_witness :
    (BookingViewSet.confirm
        (BookingViewSet.confirm bConfirmed).booking).response =
      (BookingViewSet.confirm bConfirmed).response ∧
    (BookingViewSet.confirm bConfirmed).response =
      BookingResponse.err HTTP_400_BAD_REQUEST
        "Only pending bookings can be confirmed." ∧
    (BookingViewSet.confirm bConfirmed).saves = 0 ∧
    (BookingViewSet.confirm
        (BookingViewSet.confirm bConfirmed).booking).saves = 0 :=
  confirm_failure_idempotent bConfirmed (by decide)

/-- C9: the properties-as-host lookup returns the user's property list
exactly when the role is `"host"` or `"admin"`, and otherwise fails with
HTTP 400 and no property records. -/
theorem properties_requires_host_or_admin (u : User) :
    UserViewSet.properties u =
      (if u.role = "host" ∨ u.role = "admin" then
        PropertiesResponse.ok u.properties
      else
        PropertiesResponse.err HTTP_400_BAD_REQUEST
          "User is not a host or admin.") := by
  by_cases h : u.role = "host" ∨ u.role = "admin" <;>
    simp_all [UserViewSet.properties]

/-- C10: the cancel gate checks only inequality with `"canceled"` — for
every booking whose status is any string other than `"canceled"`,
including strings outside the enumerated set, `cancel` succeeds and sets
the status to `"canceled"`. -/
theorem cancel_gate_only_checks_canceled (b : Booking)
    (h : b.status ≠ "canceled") :
    (BookingViewSet.cancel b).response =
      BookingResponse.ok (BookingViewSet.cancel b).booking ∧
    (BookingViewSet.cancel b).booking.status = "canceled" ∧
    (BookingViewSet.cancel b).saves = 1 := by
  simp [BookingViewSet.cancel, h]

/-- Witness for C10 at a concrete booking whose status `"draft"` lies
outside the enumerated set. -/
theorem cancel_gate_only_checks_canceled_witness :
    (BookingViewSet.cancel bWeird).response =
      BookingResponse.ok (BookingViewSet.cancel bWeird).booking ∧
    (BookingViewSet.cancel bWeird).booking.status = "canceled" ∧
    (BookingViewSet.cancel bWeird).saves = 1 :=
  cancel_gate_only_checks_canceled bWeird (by decide)
